import Mathlib

/-!
Verification of make-admin.py (RoleElevator).

The script promotes a user account to administrator: it reads the
MONGODB_URI configuration value, connects to the document store, looks up
a user document by lowercased email in the users collection, and if the
user is not already an admin it issues a single update setting the role
field to "admin".  The connection is closed in a finally block, and every
exception is caught at the top level and converted to a failure result.

We embed the script shallowly: documents are association lists of string
fields, the users collection is a list of documents, the database client's
possible failures are explicit behavior flags, and the observable side
effects (connection open/close, queries, writes) are recorded as an event
trace.
-/

namespace MakeAdmin

/-- A MongoDB document, modelled as an association list of string fields.
Lookups take the first binding of a key. -/
abbrev Doc := List (String × String)

/-- Field lookup, modelling Python dict.get: the value of the first binding
of the key, or none when the key is absent. -/
def getField (d : Doc) (k : String) : Option String :=
  (d.find? (fun p => p.1 == k)).map (fun p => p.2)

/-- MongoDB $set on one field: replace the first binding of the key, or
append the binding when the key is absent. -/
def setField : Doc → String → String → Doc
  | [], k, v => [(k, v)]
  | p :: rest, k, v => if p.1 == k then (k, v) :: rest else p :: setField rest k v

/-- The filter used by both database calls in the script: the document's
email field equals the given key. -/
def matchesEmail (d : Doc) (k : String) : Bool :=
  getField d "email" == some k

/-- The users collection. -/
abbrev UsersColl := List Doc

/-- db.users.find_one on the email filter: the first matching document. -/
def find_one (users : UsersColl) (k : String) : Option Doc :=
  users.find? (fun d => matchesEmail d k)

/-- db.users.update_one with filter on email and a $set of one field:
updates the first matching document and reports the modified count, which
is zero when no document matched or the $set did not change the document. -/
def update_one : UsersColl → String → String → String → UsersColl × Nat
  | [], _, _, _ => ([], 0)
  | d :: rest, k, f, v =>
    if matchesEmail d k then
      (setField d f v :: rest, if setField d f v = d then 0 else 1)
    else
      let r := update_one rest k f v
      (d :: r.1, r.2)

/-- Python str.lower for the ASCII range, as applied to the email argument
at both call sites (lines 24 and 40 of make-admin.py). -/
def lower (s : String) : String := ⟨s.data.map Char.toLower⟩

/-- Exceptions the database client can raise inside the try block. -/
inductive PyError where
  | connectionError : PyError
  | findError : PyError
  | updateError : PyError
deriving DecidableEq, Repr

/-- Failure modes of the database client during one invocation, plus the
external writes that other database clients may perform in the race window
between the find and the update (the window documented in the spec). -/
structure ClientBehavior where
  connectFails : Bool
  findFails : Bool
  updateFails : Bool
  interference : UsersColl → UsersColl

/-- The client behavior in which every database call succeeds and no
concurrent writer touches the collection. -/
def quietClient : ClientBehavior :=
  ⟨false, false, false, id⟩

/-- Observable side effects of one invocation: connection acquisition and
release, and the executed database operations with the email filter value
they used. -/
inductive Event where
  | connOpen : Event
  | connClose : Event
  | query : String → Event
  | write : String → Event
deriving DecidableEq, Repr

/-- Whether an event is a write to the database. -/
def Event.isWrite : Event → Bool
  | .write _ => true
  | _ => false

/-- Result of the try block of make_admin, before except/finally run:
the outcome (a raised exception or the returned boolean), the collection
state, the events so far, and whether the client variable was bound. -/
structure BodyResult where
  outcome : Except PyError Bool
  users : UsersColl
  events : List Event
  clientAcquired : Bool

/-- The try block of make_admin (lines 11-51 of make-admin.py):
read MONGODB_URI (failing on an unset or empty value), construct the
client, find the user by lowercased email, treat a missing or falsy
document as not found, short-circuit when the role is already admin, and
otherwise issue one update and report success exactly when its modified
count is positive. -/
def make_admin_try (uri : Option String) (b : ClientBehavior)
    (users : UsersColl) (email : String) : BodyResult :=
  match uri with
  | none => ⟨.ok false, users, [], false⟩
  | some u =>
    if u = "" then ⟨.ok false, users, [], false⟩
    else if b.connectFails then
      ⟨.error .connectionError, users, [], false⟩
    else if b.findFails then
      ⟨.error .findError, users, [Event.connOpen], true⟩
    else
      match find_one users (lower email) with
      | none =>
        ⟨.ok false, users, [Event.connOpen, Event.query (lower email)], true⟩
      | some user =>
        if user.isEmpty then
          ⟨.ok false, users, [Event.connOpen, Event.query (lower email)], true⟩
        else if getField user "role" == some "admin" then
          ⟨.ok true, users, [Event.connOpen, Event.query (lower email)], true⟩
        else
          let users1 := b.interference users
          if b.updateFails then
            ⟨.error .updateError, users1,
              [Event.connOpen, Event.query (lower email)], true⟩
          else
            let r := update_one users1 (lower email) "role" "admin"
            ⟨.ok (decide (0 < r.2)), r.1,
              [Event.connOpen, Event.query (lower email),
               Event.write (lower email)], true⟩

/-- Result of a whole make_admin invocation: the returned boolean, the
final collection state, and the full event trace. -/
structure RunResult where
  success : Bool
  users : UsersColl
  events : List Event

/-- make_admin (lines 10-58 of make-admin.py): run the try block, convert
any raised exception to a False return (the except clause), and close the
client in the finally clause whenever it was bound. -/
def make_admin (uri : Option String) (b : ClientBehavior)
    (users : UsersColl) (email : String) : RunResult :=
  let r := make_admin_try uri b users email
  { success := match r.outcome with | .ok s => s | .error _ => false
    users := r.users
    events := r.events ++ (if r.clientAcquired then [Event.connClose] else []) }

/-- Outcome of the whole process: exit code, whether the usage message was
printed, and the make_admin run when one happened. -/
structure ScriptOutcome where
  exitCode : Nat
  usagePrinted : Bool
  run : Option RunResult

/-- The __main__ block (lines 60-68 of make-admin.py): with fewer than two
argv entries print the usage message and exit 1; otherwise run make_admin
on argv[1] and exit 0 on success, 1 on failure. -/
def main_block (argv : List String) (uri : Option String)
    (b : ClientBehavior) (users : UsersColl) : ScriptOutcome :=
  match argv with
  | _prog :: email :: _rest =>
    let r := make_admin uri b users email
    ⟨if r.success then 0 else 1, false, some r⟩
  | _ => ⟨1, true, none⟩

/-! Helper lemmas about the document and collection operations. -/

theorem getField_nil (k : String) : getField [] k = none := rfl

theorem getField_cons (p : String × String) (rest : Doc) (k : String) :
    getField (p :: rest) k = if p.1 == k then some p.2 else getField rest k := by
  cases h : p.1 == k <;> simp [getField, List.find?, h]

theorem getField_setField_self (d : Doc) (k v : String) :
    getField (setField d k v) k = some v := by
  induction d with
  | nil => simp [setField, getField_cons, getField_nil]
  | cons p rest ih =>
    by_cases h : p.1 = k
    · simp [setField, getField_cons, h]
    · simp [setField, getField_cons, h, ih]

theorem getField_setField_ne (d : Doc) (k k' v : String) (h : k' ≠ k) :
    getField (setField d k v) k' = getField d k' := by
  induction d with
  | nil =>
    simp [setField, getField_cons, getField_nil]
    intro he
    exact absurd he.symm h
  | cons p rest ih =>
    by_cases hp : p.1 = k
    · have hk : ¬ (k = k') := fun he => h he.symm
      simp [setField, getField_cons, hp, hk]
    · simp [setField, getField_cons, hp, ih]

theorem setField_ne_of_getField_ne (d : Doc) (k v : String)
    (h : getField d k ≠ some v) : setField d k v ≠ d := by
  intro he
  apply h
  rw [← he]
  exact getField_setField_self d k v

theorem find_one_matches (users : UsersColl) (k : String) (d : Doc)
    (h : find_one users k = some d) : matchesEmail d k = true := by
  have h' : users.find? (fun x => matchesEmail x k) = some d := h
  have h2 := List.find?_some h'
  simpa using h2

theorem matchesEmail_not_nil (d : Doc) (k : String)
    (h : matchesEmail d k = true) : d.isEmpty = false := by
  cases d with
  | nil => simp [matchesEmail, getField_nil] at h
  | cons p rest => rfl

theorem find_one_split (users : UsersColl) (k : String) (d : Doc)
    (h : find_one users k = some d) :
    ∃ l1 l2, users = l1 ++ d :: l2 ∧ ∀ x ∈ l1, matchesEmail x k = false := by
  induction users with
  | nil => simp [find_one, List.find?] at h
  | cons x rest ih =>
    by_cases hx : matchesEmail x k = true
    · have : x = d := by
        simp [find_one, List.find?, hx] at h
        exact h
      exact ⟨[], rest, by simp [this], by simp⟩
    · have hx' : matchesEmail x k = false := by
        cases hm : matchesEmail x k
        · rfl
        · exact absurd hm hx
      have h' : find_one rest k = some d := by
        simpa [find_one, List.find?, hx'] using h
      obtain ⟨l1, l2, heq, hall⟩ := ih h'
      refine ⟨x :: l1, l2, by simp [heq], ?_⟩
      intro y hy
      rcases List.mem_cons.mp hy with hy | hy
      · rw [hy]; exact hx'
      · exact hall y hy

theorem update_one_append (l1 l2 : UsersColl) (d : Doc) (k f v : String)
    (h1 : ∀ x ∈ l1, matchesEmail x k = false) (h2 : matchesEmail d k = true) :
    update_one (l1 ++ d :: l2) k f v =
      (l1 ++ setField d f v :: l2, if setField d f v = d then 0 else 1) := by
  induction l1 with
  | nil => simp [update_one, h2]
  | cons x rest ih =>
    have hx : matchesEmail x k = false := h1 x (List.mem_cons_self x rest)
    have ih' := ih (fun y hy => h1 y (List.mem_cons_of_mem x hy))
    simp [update_one, hx, ih']

theorem make_admin_try_shape (uri : Option String) (b : ClientBehavior)
    (users : UsersColl) (email : String) :
    ((make_admin_try uri b users email).events = [] ∧
      (make_admin_try uri b users email).clientAcquired = false) ∨
    ((make_admin_try uri b users email).events = [Event.connOpen] ∧
      (make_admin_try uri b users email).clientAcquired = true) ∨
    ((make_admin_try uri b users email).events
        = [Event.connOpen, Event.query (lower email)] ∧
      (make_admin_try uri b users email).clientAcquired = true) ∨
    ((make_admin_try uri b users email).events
        = [Event.connOpen, Event.query (lower email), Event.write (lower email)] ∧
      (make_admin_try uri b users email).clientAcquired = true) := by
  unfold make_admin_try
  cases uri with
  | none => simp
  | some u =>
    by_cases hu : u = ""
    · simp [hu]
    · cases hcf : b.connectFails
      · cases hff : b.findFails
        · cases hfo : find_one users (lower email) with
          | none => simp [hu, hfo]
          | some user =>
            cases hne : user.isEmpty
            · cases hr : getField user "role" == some "admin"
              · cases hup : b.updateFails
                · simp [hu, hfo, hne, hr, hup]
                · simp [hu, hfo, hne, hr, hup]
              · simp [hu, hfo, hne, hr]
            · simp [hu, hfo, hne]
        · simp [hu]
      · simp [hu, hcf]

/-- C4: when the MONGODB_URI configuration value is absent, make_admin
returns failure, produces no events at all — in particular it never
attempts a database connection — and leaves the collection untouched,
for every email input. -/
theorem config_gate_no_uri (b : ClientBehavior) (users : UsersColl)
    (email : String) :
    (make_admin none b users email).success = false ∧
    (make_admin none b users email).events = [] ∧
    (make_admin none b users email).users = users := by
  simp [make_admin, make_admin_try]

/-- C3: when no user record matches the lowercased email, make_admin issues
no write, returns failure, and leaves the collection unchanged, whatever the
configuration and client behavior. -/
theorem noop_on_miss (uri : Option String) (b : ClientBehavior)
    (users : UsersColl) (email : String)
    (h : find_one users (lower email) = none) :
    (make_admin uri b users email).success = false ∧
    (make_admin uri b users email).users = users ∧
    (make_admin uri b users email).events.filter Event.isWrite = [] := by
  cases uri with
  | none => simp [make_admin, make_admin_try]
  | some u =>
    by_cases hu : u = "" <;>
      cases hcf : b.connectFails <;>
        cases hff : b.findFails <;>
          simp [make_admin, make_admin_try, hu, hcf, hff, h, Event.isWrite]

/-- Witness for the C3 theorem at a concrete input: an empty collection
matches no email. -/
theorem noop_on_miss_w :
    find_one [] (lower "a@b.c") = none ∧
    ((make_admin (some "m") quietClient [] "a@b.c").success = false ∧
      (make_admin (some "m") quietClient [] "a@b.c").users = [] ∧
      (make_admin (some "m") quietClient [] "a@b.c").events.filter
        Event.isWrite = []) :=
  ⟨by decide, noop_on_miss (some "m") quietClient [] "a@b.c" (by decide)⟩

/-- C2: when the matched record's role is already admin, make_admin
returns success, issues no write, and leaves the collection unchanged. -/
theorem already_admin_idempotent (u : String) (b : ClientBehavior)
    (users : UsersColl) (email : String) (user : Doc)
    (hu : u ≠ "") (hc : b.connectFails = false) (hf : b.findFails = false)
    (hfind : find_one users (lower email) = some user)
    (hrole : getField user "role" = some "admin") :
    (make_admin (some u) b users email).success = true ∧
    (make_admin (some u) b users email).users = users ∧
    (make_admin (some u) b users email).events.filter Event.isWrite = [] := by
  have hm := find_one_matches users (lower email) user hfind
  have hne := matchesEmail_not_nil user (lower email) hm
  simp [make_admin, make_admin_try, hu, hc, hf, hfind, hne, hrole, Event.isWrite]

/-- Witness for the C2 theorem at a concrete input: a record that is
already an admin. -/
theorem already_admin_idempotent_w :
    ("m" : String) ≠ "" ∧
    find_one [[("email", "a@b.c"), ("role", "admin")]] (lower "a@b.c")
      = some [("email", "a@b.c"), ("role", "admin")] ∧
    getField [("email", "a@b.c"), ("role", "admin")] "role" = some "admin" ∧
    ((make_admin (some "m") quietClient [[("email", "a@b.c"), ("role", "admin")]]
        "a@b.c").success = true ∧
      (make_admin (some "m") quietClient [[("email", "a@b.c"), ("role", "admin")]]
        "a@b.c").users = [[("email", "a@b.c"), ("role", "admin")]] ∧
      (make_admin (some "m") quietClient [[("email", "a@b.c"), ("role", "admin")]]
        "a@b.c").events.filter Event.isWrite = []) :=
  ⟨by decide, by decide, by decide,
    already_admin_idempotent "m" quietClient
      [[("email", "a@b.c"), ("role", "admin")]] "a@b.c"
      [("email", "a@b.c"), ("role", "admin")]
      (by decide) rfl rfl (by decide) (by decide)⟩

/-- C8: on every path of make_admin the connection is released exactly when
it was acquired: the trace holds as many close events as open events, and a
close event occurs exactly when an open event does. -/
theorem connection_released (uri : Option String) (b : ClientBehavior)
    (users : UsersColl) (email : String) :
    (make_admin uri b users email).events.count Event.connOpen
      = (make_admin uri b users email).events.count Event.connClose ∧
    (Event.connOpen ∈ (make_admin uri b users email).events ↔
      Event.connClose ∈ (make_admin uri b users email).events) := by
  rcases make_admin_try_shape uri b users email with
    ⟨h1, h2⟩ | ⟨h1, h2⟩ | ⟨h1, h2⟩ | ⟨h1, h2⟩ <;>
    simp [make_admin, h1, h2, List.count_cons]

/-- C9: every exception raised inside the try block is caught at the top
level of make_admin: the call returns False rather than propagating, and
the process exits with code 1. -/
theorem failures_caught (uri : Option String) (b : ClientBehavior)
    (users : UsersColl) (prog email : String) (e : PyError)
    (h : (make_admin_try uri b users email).outcome = Except.error e) :
    (make_admin uri b users email).success = false ∧
    (main_block [prog, email] uri b users).exitCode = 1 := by
  constructor
  · simp [make_admin, h]
  · simp [main_block, make_admin, h]

/-- Witness for the C9 theorem at a concrete input: a client whose
connection constructor raises. -/
theorem failures_caught_w :
    (make_admin_try (some "m") ⟨true, false, false, id⟩ [] "a@b.c").outcome
      = Except.error PyError.connectionError ∧
    ((make_admin (some "m") ⟨true, false, false, id⟩ [] "a@b.c").success
        = false ∧
      (main_block ["prog", "a@b.c"] (some "m") ⟨true, false, false, id⟩
        []).exitCode = 1) :=
  ⟨rfl, failures_caught (some "m") ⟨true, false, false, id⟩ [] "prog" "a@b.c"
    PyError.connectionError rfl⟩

/-- C5: every query and every update filter that make_admin issues carries
the input email lowercased, and at the concrete input of the spec,
elevating User@Example.com finds and promotes the record stored under
user@example.com. -/
theorem lookup_key_lowercased (uri : Option String) (b : ClientBehavior)
    (users : UsersColl) (email : String) :
    (∀ s, Event.query s ∈ (make_admin uri b users email).events →
      s = lower email) ∧
    (∀ s, Event.write s ∈ (make_admin uri b users email).events →
      s = lower email) ∧
    (make_admin (some "mongodb://host/db") quietClient
      [[("email", "user@example.com"), ("role", "instructor")]]
      "User@Example.com").success = true := by
  refine ⟨?_, ?_, by decide⟩ <;>
    rcases make_admin_try_shape uri b users email with
      ⟨h1, h2⟩ | ⟨h1, h2⟩ | ⟨h1, h2⟩ | ⟨h1, h2⟩ <;>
      intro s hs <;>
      simp [make_admin, h1, h2] at hs <;>
      simp [hs]

/-- Witness for the C5 theorem at a concrete input: the query issued for
User@Example.com uses the lowercased key. -/
theorem lookup_key_lowercased_w :
    Event.query "user@example.com"
      ∈ (make_admin (some "m") quietClient
          [[("email", "user@example.com"), ("role", "admin")]]
          "User@Example.com").events ∧
    "user@example.com" = lower "User@Example.com" :=
  ⟨by decide,
    (lookup_key_lowercased (some "m") quietClient
      [[("email", "user@example.com"), ("role", "admin")]]
      "User@Example.com").1 "user@example.com" (by decide)⟩

/-- C7: the process exit code is 0 exactly when make_admin reported
success and 1 on every failure path; when the email argument is omitted
the usage message is printed and make_admin is never invoked, so no
connection is attempted. -/
theorem exit_code_spec (argv : List String) (uri : Option String)
    (b : ClientBehavior) (users : UsersColl) :
    ((main_block argv uri b users).exitCode = 0 ∨
      (main_block argv uri b users).exitCode = 1) ∧
    ((main_block argv uri b users).exitCode = 0 ↔
      ∃ r, (main_block argv uri b users).run = some r ∧ r.success = true) ∧
    (argv.length < 2 →
      (main_block argv uri b users).exitCode = 1 ∧
      (main_block argv uri b users).usagePrinted = true ∧
      (main_block argv uri b users).run = none) := by
  match argv with
  | [] => simp [main_block]
  | [p] => simp [main_block]
  | p :: e :: rest =>
    cases hs : (make_admin uri b users e).success <;>
      simp [main_block, hs]

/-- Witness for the C7 theorem at a concrete input: no email argument. -/
theorem exit_code_spec_w :
    ([] : List String).length < 2 ∧
    ((main_block [] none quietClient []).exitCode = 1 ∧
      (main_block [] none quietClient []).usagePrinted = true ∧
      (main_block [] none quietClient []).run = none) :=
  ⟨by decide, (exit_code_spec [] none quietClient []).2.2 (by decide)⟩

/-- C1: when a record matches the lowercased email and its role is not
admin, make_admin issues exactly one write, the matched record's role
field becomes admin, every other field of the record is unchanged, and
every other record of the collection is unchanged. -/
theorem elevate_nonadmin (u : String) (b : ClientBehavior)
    (users : UsersColl) (email : String) (user : Doc)
    (hu : u ≠ "") (hc : b.connectFails = false) (hf : b.findFails = false)
    (hup : b.updateFails = false) (hint : b.interference = id)
    (hfind : find_one users (lower email) = some user)
    (hrole : getField user "role" ≠ some "admin") :
    ∃ l1 l2,
      users = l1 ++ user :: l2 ∧
      (make_admin (some u) b users email).users
        = l1 ++ setField user "role" "admin" :: l2 ∧
      getField (setField user "role" "admin") "role" = some "admin" ∧
      (∀ k, k ≠ "role" →
        getField (setField user "role" "admin") k = getField user k) ∧
      (make_admin (some u) b users email).events.filter Event.isWrite
        = [Event.write (lower email)] := by
  have hm := find_one_matches users (lower email) user hfind
  have hne := matchesEmail_not_nil user (lower email) hm
  obtain ⟨l1, l2, heq, hall⟩ := find_one_split users (lower email) user hfind
  have hsf : setField user "role" "admin" ≠ user :=
    setField_ne_of_getField_ne user "role" "admin" hrole
  have hup1 : update_one users (lower email) "role" "admin"
      = (l1 ++ setField user "role" "admin" :: l2, 1) := by
    rw [heq, update_one_append l1 l2 user (lower email) "role" "admin" hall hm]
    simp [hsf]
  refine ⟨l1, l2, heq, ?_,
    getField_setField_self user "role" "admin",
    fun k hk => getField_setField_ne user "role" k "admin" hk, ?_⟩ <;>
    simp [make_admin, make_admin_try, hu, hc, hf, hup, hint, hfind, hne,
      hrole, hup1, Event.isWrite]

/-- Witness for the C1 theorem at a concrete input: an instructor record
with an extra display field. -/
theorem elevate_nonadmin_w :
    find_one [[("email", "a@b.c"), ("role", "instructor"), ("firstName", "Al")]]
        (lower "A@B.C")
      = some [("email", "a@b.c"), ("role", "instructor"), ("firstName", "Al")] ∧
    getField [("email", "a@b.c"), ("role", "instructor"), ("firstName", "Al")]
        "role" ≠ some "admin" ∧
    (∃ l1 l2,
      [[("email", "a@b.c"), ("role", "instructor"), ("firstName", "Al")]]
        = l1 ++ [("email", "a@b.c"), ("role", "instructor"), ("firstName", "Al")]
            :: l2 ∧
      (make_admin (some "m") quietClient
          [[("email", "a@b.c"), ("role", "instructor"), ("firstName", "Al")]]
          "A@B.C").users
        = l1 ++ setField
            [("email", "a@b.c"), ("role", "instructor"), ("firstName", "Al")]
            "role" "admin" :: l2 ∧
      getField (setField
          [("email", "a@b.c"), ("role", "instructor"), ("firstName", "Al")]
          "role" "admin") "role" = some "admin" ∧
      (∀ k, k ≠ "role" →
        getField (setField
            [("email", "a@b.c"), ("role", "instructor"), ("firstName", "Al")]
            "role" "admin") k
          = getField
              [("email", "a@b.c"), ("role", "instructor"), ("firstName", "Al")]
              k) ∧
      (make_admin (some "m") quietClient
          [[("email", "a@b.c"), ("role", "instructor"), ("firstName", "Al")]]
          "A@B.C").events.filter Event.isWrite
        = [Event.write (lower "A@B.C")]) :=
  ⟨by decide, by decide,
    elevate_nonadmin "m" quietClient
      [[("email", "a@b.c"), ("role", "instructor"), ("firstName", "Al")]]
      "A@B.C"
      [("email", "a@b.c"), ("role", "instructor"), ("firstName", "Al")]
      (by decide) rfl rfl rfl rfl (by decide) (by decide)⟩

/-- C6: on the update path, make_admin succeeds exactly when the update's
modified count is positive, it issues exactly one write with no retry, and
the final collection is the one produced by that single update.  The
client behavior's interference component covers the race window between
the find and the update. -/
theorem success_iff_modified (u : String) (b : ClientBehavior)
    (users : UsersColl) (email : String) (user : Doc)
    (hu : u ≠ "") (hc : b.connectFails = false) (hf : b.findFails = false)
    (hup : b.updateFails = false)
    (hfind : find_one users (lower email) = some user)
    (hrole : getField user "role" ≠ some "admin") :
    ((make_admin (some u) b users email).success = true ↔
      0 < (update_one (b.interference users) (lower email) "role" "admin").2) ∧
    (make_admin (some u) b users email).events.filter Event.isWrite
      = [Event.write (lower email)] ∧
    (make_admin (some u) b users email).users
      = (update_one (b.interference users) (lower email) "role" "admin").1 := by
  have hm := find_one_matches users (lower email) user hfind
  have hne := matchesEmail_not_nil user (lower email) hm
  simp [make_admin, make_admin_try, hu, hc, hf, hup, hfind, hne, hrole,
    Event.isWrite]

/-- Witness for the C6 theorem at a concrete input: a concurrent writer
deletes the record between the find and the update, the modified count is
zero, and make_admin reports failure. -/
theorem success_iff_modified_w :
    find_one [[("email", "a@b.c"), ("role", "instructor")]] (lower "a@b.c")
      = some [("email", "a@b.c"), ("role", "instructor")] ∧
    getField [("email", "a@b.c"), ("role", "instructor")] "role"
      ≠ some "admin" ∧
    (((make_admin (some "m") ⟨false, false, false, fun _ => []⟩
          [[("email", "a@b.c"), ("role", "instructor")]] "a@b.c").success
        = true ↔
      0 < (update_one ((fun (_ : UsersColl) => ([] : UsersColl))
            [[("email", "a@b.c"), ("role", "instructor")]])
          (lower "a@b.c") "role" "admin").2) ∧
      (make_admin (some "m") ⟨false, false, false, fun _ => []⟩
          [[("email", "a@b.c"), ("role", "instructor")]] "a@b.c").events.filter
          Event.isWrite
        = [Event.write (lower "a@b.c")] ∧
      (make_admin (some "m") ⟨false, false, false, fun _ => []⟩
          [[("email", "a@b.c"), ("role", "instructor")]] "a@b.c").users
        = (update_one ((fun (_ : UsersColl) => ([] : UsersColl))
            [[("email", "a@b.c"), ("role", "instructor")]])
          (lower "a@b.c") "role" "admin").1) :=
  ⟨by decide, by decide,
    success_iff_modified "m" ⟨false, false, false, fun _ => []⟩
      [[("email", "a@b.c"), ("role", "instructor")]] "a@b.c"
      [("email", "a@b.c"), ("role", "instructor")]
      (by decide) rfl rfl rfl (by decide) (by decide)⟩

/-- C10: a matched record with no role field at all is treated as
non-admin: the already-admin short-circuit does not fire, the single
update is issued, make_admin returns success, and the record ends up with
role admin; the absent field never causes an error. -/
theorem role_absent_elevated (u : String) (b : ClientBehavior)
    (users : UsersColl) (email : String) (user : Doc)
    (hu : u ≠ "") (hc : b.connectFails = false) (hf : b.findFails = false)
    (hup : b.updateFails = false) (hint : b.interference = id)
    (hfind : find_one users (lower email) = some user)
    (hrole : getField user "role" = none) :
    (make_admin (some u) b users email).success = true ∧
    (make_admin (some u) b users email).events.filter Event.isWrite
      = [Event.write (lower email)] ∧
    ∃ l1 l2,
      users = l1 ++ user :: l2 ∧
      (make_admin (some u) b users email).users
        = l1 ++ setField user "role" "admin" :: l2 ∧
      getField (setField user "role" "admin") "role" = some "admin" := by
  have hrole' : getField user "role" ≠ some "admin" := by
    rw [hrole]; exact fun h => Option.noConfusion h
  have hm := find_one_matches users (lower email) user hfind
  have hne := matchesEmail_not_nil user (lower email) hm
  obtain ⟨l1, l2, heq, hall⟩ := find_one_split users (lower email) user hfind
  have hsf : setField user "role" "admin" ≠ user :=
    setField_ne_of_getField_ne user "role" "admin" hrole'
  have hup1 : update_one users (lower email) "role" "admin"
      = (l1 ++ setField user "role" "admin" :: l2, 1) := by
    rw [heq, update_one_append l1 l2 user (lower email) "role" "admin" hall hm]
    simp [hsf]
  refine ⟨?_, ?_, l1, l2, heq, ?_,
    getField_setField_self user "role" "admin"⟩ <;>
    simp [make_admin, make_admin_try, hu, hc, hf, hup, hint, hfind, hne,
      hrole', hup1, Event.isWrite]

/-- Witness for the C10 theorem at a concrete input: a record without a
role field. -/
theorem role_absent_elevated_w :
    find_one [[("email", "x@y.z"), ("firstName", "Jo")]] (lower "x@y.z")
      = some [("email", "x@y.z"), ("firstName", "Jo")] ∧
    getField [("email", "x@y.z"), ("firstName", "Jo")] "role" = none ∧
    ((make_admin (some "m") quietClient
        [[("email", "x@y.z"), ("firstName", "Jo")]] "x@y.z").success = true ∧
      (make_admin (some "m") quietClient
          [[("email", "x@y.z"), ("firstName", "Jo")]] "x@y.z").events.filter
          Event.isWrite
        = [Event.write (lower "x@y.z")] ∧
      ∃ l1 l2,
        [[("email", "x@y.z"), ("firstName", "Jo")]]
          = l1 ++ [("email", "x@y.z"), ("firstName", "Jo")] :: l2 ∧
        (make_admin (some "m") quietClient
            [[("email", "x@y.z"), ("firstName", "Jo")]] "x@y.z").users
          = l1 ++ setField [("email", "x@y.z"), ("firstName", "Jo")]
              "role" "admin" :: l2 ∧
        getField (setField [("email", "x@y.z"), ("firstName", "Jo")]
            "role" "admin") "role" = some "admin") :=
  ⟨by decide, by decide,
    role_absent_elevated "m" quietClient
      [[("email", "x@y.z"), ("firstName", "Jo")]] "x@y.z"
      [("email", "x@y.z"), ("firstName", "Jo")]
      (by decide) rfl rfl rfl rfl (by decide) (by decide)⟩

end MakeAdmin
